import Mathlib

/-
Verification of the dynamic-dispatch core of the Zendesk Python API wrapper
(zendesk/zendesk.py).  The definitions below are a shallow embedding of the
module: Python values are modelled by an inductive type with Python
truthiness, exceptions by an explicit outcome type, dictionaries by
association lists, and each function of the module by a Lean function that
follows its source line by line.  Line numbers in the doc comments refer to
zendesk/zendesk.py.
-/

set_option autoImplicit false

namespace ZendeskModel

/-- Python values as they occur in this module: None, booleans, integers,
strings, lists and string-keyed dictionaries (the shapes produced by
json.loads and used for request bodies and error messages).  Floats do not
occur in any behaviour modelled here and are left out. -/
inductive PyVal where
  | none
  | bool (b : Bool)
  | int (n : Int)
  | str (s : String)
  | list (xs : List PyVal)
  | dict (xs : List (String × PyVal))

/-- Python truthiness: None, False, 0, empty string and empty containers are
falsy, everything else is truthy. -/
def PyVal.truthy : PyVal → Bool
  | .none => false
  | .bool b => b
  | .int n => n != 0
  | .str s => s != ""
  | .list xs => !xs.isEmpty
  | .dict xs => !xs.isEmpty

/-- Exceptions that the module can raise.  TypeError carries the message
text; ZendeskError, AuthenticationError and ExceededLimitError mirror the
classes of lines 40-69 with the attributes their constructors assign. -/
inductive PyExc where
  | typeError (msg : String)
  | keyError (key : String)
  | nameError (name : String)
  | zendeskError (msg : PyVal) (error_code : Int)
  | authenticationError (msg : String)
  | exceededLimitError (msg : PyVal) (error_code : Int) (retry_after : PyVal)

/-- Python subscription v[k] for a string key: a dict lookup (KeyError when
the key is missing), a TypeError on any non-dict value. -/
def pyGetItem (v : PyVal) (k : String) : Except PyExc PyVal :=
  match v with
  | .dict xs =>
    match xs.lookup k with
    | some x => .ok x
    | Option.none => .error (.keyError k)
  | .str _ => .error (.typeError "string indices must be integers")
  | .list _ => .error (.typeError "list indices must be integers, not str")
  | _ => .error (.typeError "object is not subscriptable")

/-- Python len(): defined for strings, lists and dicts, a TypeError
otherwise. -/
def pyLen : PyVal → Option Nat
  | .str s => some s.length
  | .list xs => some xs.length
  | .dict xs => some xs.length
  | _ => Option.none

mutual

/-- Python repr() of a value. -/
def pyRepr : PyVal → String
  | .none => "None"
  | .bool b => cond b "True" "False"
  | .int n => toString n
  | .str s => "\x27" ++ s ++ "\x27"
  | .list xs => "[" ++ String.intercalate ", " (pyReprList xs) ++ "]"
  | .dict xs => "\x7b" ++ String.intercalate ", " (pyReprPairs xs) ++ "\x7d"

/-- Renderings of the elements of a Python list. -/
def pyReprList : List PyVal → List String
  | [] => []
  | x :: xs => pyRepr x :: pyReprList xs

/-- Renderings of the key-value pairs of a Python dict. -/
def pyReprPairs : List (String × PyVal) → List String
  | [] => []
  | p :: xs => ("\x27" ++ p.1 ++ "\x27: " ++ pyRepr p.2) :: pyReprPairs xs

end

/-- Python str() of a value: the string itself for strings, repr-style
rendering otherwise. -/
def pyStr (v : PyVal) : String :=
  match v with
  | .str s => s
  | _ => pyRepr v

/-- Embedding of ZendeskError.__init__ (lines 41-51) as the classification
step it really is: the function returns the exception that the expression
ZendeskError(msg, error) raises.  int(error) with the default error=None
raises TypeError; error_code 401 raises AuthenticationError, whose own
constructor (line 57) evaluates str(msg[\x27error\x27]) and so itself raises
KeyError or TypeError when msg has no such entry; error_code 429 reads
msg[\x27retry-after\x27] and msg[\x27msg\x27] and raises ExceededLimitError;
any other integer code leaves the constructed ZendeskError itself to be
raised. -/
def constructZendeskError (msg : PyVal) (error : Option Int) : PyExc :=
  match error with
  | Option.none => .typeError "int() argument must be a string or a number, not NoneType"
  | some code =>
    if code = 401 then
      match pyGetItem msg "error" with
      | .ok v => .authenticationError (pyStr v)
      | .error e => e
    else if code = 429 then
      match pyGetItem msg "retry-after" with
      | .error e => e
      | .ok ra =>
        match pyGetItem msg "msg" with
        | .error e => e
        | .ok m => .exceededLimitError m code ra
    else
      .zendeskError msg code

/-- JSON whitespace skipping used by the json.loads model. -/
def skipWs (cs : List Char) : List Char :=
  cs.dropWhile (fun c => c == ' ' || c == '\t' || c == '\n' || c == '\r')

/-- String body scanner of the json.loads model: input after the opening
quote, output the decoded characters and the remainder after the closing
quote.  The common escapes are handled; \uXXXX escapes do not occur in any
behaviour modelled here. -/
def parseStringAux : List Char → Option (List Char × List Char)
  | [] => Option.none
  | '"' :: rest => some ([], rest)
  | '\\' :: c :: rest =>
    let ec : Char :=
      if c = 'n' then '\n'
      else if c = 't' then '\t'
      else if c = 'r' then '\r'
      else c
    (parseStringAux rest).map (fun pr => (ec :: pr.1, pr.2))
  | c :: rest => (parseStringAux rest).map (fun pr => (c :: pr.1, pr.2))

/-- Digit run to a natural number. -/
def natOfDigits (cs : List Char) : Nat :=
  cs.foldl (fun n c => n * 10 + (c.toNat - '0'.toNat)) 0

/-- Integer literal scanner of the json.loads model.  Float and exponent
forms are rejected; they occur nowhere in the modelled behaviour. -/
def parseNumber (cs : List Char) : Option (PyVal × List Char) :=
  match cs with
  | '-' :: cs2 =>
    let digs := cs2.takeWhile Char.isDigit
    let rest := cs2.dropWhile Char.isDigit
    if digs.isEmpty then Option.none
    else some (.int (-(natOfDigits digs : Int)), rest)
  | _ =>
    let digs := cs.takeWhile Char.isDigit
    let rest := cs.dropWhile Char.isDigit
    if digs.isEmpty then Option.none
    else some (.int (natOfDigits digs), rest)

/-- Mode of the recursive-descent json.loads model: a single value, the
items of an array after its opening bracket, or the members of an object
after its opening brace. -/
inductive PMode where
  | value
  | items
  | members

/-- Recursive-descent core of the json.loads model, structurally recursive
on the fuel; items mode returns a PyVal.list, members mode a PyVal.dict. -/
def parseAux : Nat → PMode → List Char → Option (PyVal × List Char)
  | 0, _, _ => Option.none
  | fuel+1, .value, cs =>
    match skipWs cs with
    | 'n' :: 'u' :: 'l' :: 'l' :: rest => some (.none, rest)
    | 't' :: 'r' :: 'u' :: 'e' :: rest => some (.bool true, rest)
    | 'f' :: 'a' :: 'l' :: 's' :: 'e' :: rest => some (.bool false, rest)
    | '"' :: rest => (parseStringAux rest).map (fun pr => (.str (String.mk pr.1), pr.2))
    | '[' :: rest =>
      (match skipWs rest with
       | ']' :: r => some (.list [], r)
       | cs2 => parseAux fuel .items cs2)
    | '\x7b' :: rest =>
      (match skipWs rest with
       | '\x7d' :: r => some (.dict [], r)
       | cs2 => parseAux fuel .members cs2)
    | cs2 => parseNumber cs2
  | fuel+1, .items, cs =>
    match parseAux fuel .value cs with
    | Option.none => Option.none
    | some (v, rest) =>
      match skipWs rest with
      | ']' :: r => some (.list [v], r)
      | ',' :: r =>
        (match parseAux fuel .items r with
         | some (.list vs, r2) => some (.list (v :: vs), r2)
         | _ => Option.none)
      | _ => Option.none
  | fuel+1, .members, cs =>
    match skipWs cs with
    | '"' :: rest =>
      (match parseStringAux rest with
       | Option.none => Option.none
       | some (k, rest2) =>
         match skipWs rest2 with
         | ':' :: rest3 =>
           (match parseAux fuel .value rest3 with
            | Option.none => Option.none
            | some (v, rest4) =>
              match skipWs rest4 with
              | '\x7d' :: r => some (.dict [(String.mk k, v)], r)
              | ',' :: r =>
                (match parseAux fuel .members r with
                 | some (.dict ms, r2) => some (.dict ((String.mk k, v) :: ms), r2)
                 | _ => Option.none)
              | _ => Option.none)
         | _ => Option.none)
    | _ => Option.none

/-- Model of json.loads: parse one value and require only whitespace after
it; returns none where Python raises ValueError. -/
def jsonLoads (s : String) : Option PyVal :=
  match parseAux (2 * s.length + 4) .value s.data with
  | some (v, rest) => if skipWs rest = [] then some v else Option.none
  | Option.none => Option.none

/-- Truthiness of content.strip() at line 239: true exactly when the body
holds some non-whitespace character. -/
def stripTruthy (s : String) : Bool :=
  s.data.any (fun c => !(c == ' ' || c == '\t' || c == '\n' || c == '\r'))

/-- Response metadata as the handler consumes it: the numeric status code
(0 models a falsy status) and the response headers.  requests header values
are strings. -/
structure HttpResponse where
  status_code : Int
  headers : List (String × String)

/-- Dictionary lookup on an association list (d.get(k) / d[k] hit test). -/
def dictGet (k : String) (h : List (String × String)) : Option String :=
  h.lookup k

/-- Embedding of Zendesk._response_handler (lines 204-248).  The try block
of the failure branch begins with a reference to the undefined name respone
(line 222), which raises NameError, so the except branch always runs and
builds the fallback message dict from the retry-after header and the raw
body; raising ZendeskError on that dict then reclassifies by status code
(constructZendeskError).  On the success branch, the final fallback
responses[response_status] (line 248) references the undefined global name
responses, a NameError. -/
def response_handler (response : HttpResponse) (content : String) (status : Int) :
    Except PyExc PyVal :=
  if response.status_code = 0 then
    -- line 218: raise ZendeskError(\x27Response Not Found\x27); error defaults to None
    .error (constructZendeskError (.str "Response Not Found") Option.none)
  else
    let response_status : Int := response.status_code
    if response_status ≠ status then
      let message : List (String × PyVal) :=
        (match dictGet "retry-after" response.headers with
         | some v => [("retry-after", PyVal.str v)]
         | Option.none => []) ++ [("msg", PyVal.str content)]
      .error (constructZendeskError (.dict message) (some response_status))
    else
      let decodedNonEmpty : Option PyVal :=
        if !stripTruthy content then Option.none
        else
          match jsonLoads content with
          | some decoded =>
            (match pyLen decoded with
             | some n => if n > 0 then some decoded else Option.none
             | Option.none => Option.none)
          | Option.none => Option.none
      match decodedNonEmpty with
      | some d => .ok d
      | Option.none =>
        match dictGet "location" response.headers with
        | some loc => if loc = "" then .error (.nameError "responses") else .ok (.str loc)
        | Option.none => .error (.nameError "responses")

/-- The fixed version-2 collection parameter whitelist (lines 34-38). -/
def V2_COLLECTION_PARAMS : List String :=
  ["page", "per_page", "sort_order"]

/-- Characters matched by the placeholder identifier class [a-zA-Z_]
(line 159). -/
def isIdentChar (c : Char) : Bool :=
  c.isAlpha || c == '_'

/-- Embedding of kwargs.pop(ident, \x27\x27) (line 161): the value bound to
the key (default empty string) together with the mapping with that key
removed.  kwargs is a Python dict, so keys are unique. -/
def popKwarg (k : String) (kw : List (String × String)) : String × List (String × String) :=
  match kw.lookup k with
  | some v => (v, kw.filter (fun p => p.1 != k))
  | Option.none => ("", kw)

/-- Character-level scan behind the re.sub of lines 158-163.  At each
position a match of the pattern (open braces, one or more identifier
characters, close braces) is attempted; on a match the popped keyword value
is emitted and scanning resumes after the match, otherwise the character is
emitted and scanning resumes one position later, exactly as re.sub finds
leftmost non-overlapping matches.  The fuel is instantiated with the input
length, which one-char-or-more consumption per step never exhausts. -/
def resolveSub : Nat → List Char → List (String × String) →
    List Char × List (String × String)
  | 0, cs, kw => (cs, kw)
  | _+1, [], kw => ([], kw)
  | fuel+1, c :: cs, kw =>
    if c = '\x7b' ∧ cs.head? = some '\x7b' ∧
        cs.tail.takeWhile isIdentChar ≠ [] ∧
        (cs.tail.dropWhile isIdentChar).take 2 = ['\x7d', '\x7d'] then
      let ident := cs.tail.takeWhile isIdentChar
      let rest2 := cs.tail.dropWhile isIdentChar
      let pv := popKwarg (String.mk ident) kw
      let pr := resolveSub fuel (rest2.drop 2) pv.2
      (pv.1.data ++ pr.1, pr.2)
    else
      let pr := resolveSub fuel cs kw
      (c :: pr.1, pr.2)

/-- The identifiers of the placeholder occurrences that the scan of
resolveSub matches, in match order.  The scan of the template does not
depend on the keyword mapping, so this is a function of the template
alone. -/
def identsOfAux : Nat → List Char → List String
  | 0, _ => []
  | _+1, [] => []
  | fuel+1, c :: cs =>
    if c = '\x7b' ∧ cs.head? = some '\x7b' ∧
        cs.tail.takeWhile isIdentChar ≠ [] ∧
        (cs.tail.dropWhile isIdentChar).take 2 = ['\x7d', '\x7d'] then
      String.mk (cs.tail.takeWhile isIdentChar) ::
        identsOfAux fuel ((cs.tail.dropWhile isIdentChar).drop 2)
    else
      identsOfAux fuel cs

/-- Embedding of the template resolution of lines 158-163: substitute every
matched placeholder and return the resolved string together with the
keyword mapping after the pops. -/
def resolveTemplate (template : String) (kwargs : List (String × String)) :
    String × List (String × String) :=
  let pr := resolveSub template.data.length template.data kwargs
  (String.mk pr.1, pr.2)

/-- The placeholder identifiers a template's scan matches. -/
def templateIdents (template : String) : List String :=
  identsOfAux template.data.length template.data

/-- UTF-8 bytes of one character. -/
def utf8Bytes (c : Char) : List Nat :=
  let n := c.toNat
  if n < 128 then [n]
  else if n < 2048 then [192 + n / 64, 128 + n % 64]
  else if n < 65536 then [224 + n / 4096, 128 + n / 64 % 64, 128 + n % 64]
  else [240 + n / 262144, 128 + n / 4096 % 64, 128 + n / 64 % 64, 128 + n % 64]

/-- UTF-8 bytes of a string. -/
def strBytes (s : String) : List Nat :=
  s.data.foldr (fun c acc => utf8Bytes c ++ acc) []

/-- Hexadecimal digit characters used by percent encoding. -/
def hexDigit (n : Nat) : Char :=
  "0123456789ABCDEF".data.getD n '0'

/-- Characters urllib.quote_plus leaves unescaped: letters, digits and
the three always-safe punctuation characters. -/
def isUrlSafe (c : Char) : Bool :=
  c.isAlphanum || c == '_' || c == '.' || c == '-'

/-- quote_plus on one character: safe characters unchanged, space to plus,
anything else percent-encoded bytewise. -/
def quotePlusChar (c : Char) : List Char :=
  if isUrlSafe c then [c]
  else if c = ' ' then ['+']
  else (utf8Bytes c).foldr
    (fun b acc => '%' :: hexDigit (b / 16) :: hexDigit (b % 16) :: acc) []

/-- Model of urllib.quote_plus. -/
def quotePlus (s : String) : String :=
  String.mk (s.data.foldr (fun c acc => quotePlusChar c ++ acc) [])

/-- Model of urllib.urlencode (line 173): ampersand-separated
key=value pairs in mapping order, both sides quote_plus encoded. -/
def urlencode (kw : List (String × String)) : String :=
  String.intercalate "&" (kw.map (fun p => quotePlus p.1 ++ "=" ++ quotePlus p.2))

/-- The base64 alphabet. -/
def base64Alphabet : String :=
  "ABCDEFGHIJKLMNOPQRSTUVWXYZabcdefghijklmnopqrstuvwxyz0123456789+/"

/-- Character of a 6-bit group. -/
def b64Char (n : Nat) : Char :=
  base64Alphabet.data.getD n 'A'

/-- Standard base64 of a byte list, with padding, as base64.b64encode
produces it. -/
def b64encodeBytes : List Nat → List Char
  | [] => []
  | [a] => [b64Char (a / 4), b64Char (a % 4 * 16), '=', '=']
  | [a, b] => [b64Char (a / 4), b64Char (a % 4 * 16 + b / 16), b64Char (b % 16 * 4), '=']
  | a :: b :: c :: rest =>
    b64Char (a / 4) :: b64Char (a % 4 * 16 + b / 16) ::
      b64Char (b % 16 * 4 + c / 64) :: b64Char (c % 64) :: b64encodeBytes rest

/-- Model of base64.b64encode on a string (line 180). -/
def b64encode (s : String) : String :=
  String.mk (b64encodeBytes (strBytes s))

/-- Dictionary membership test on the header association list. -/
def dictContains (k : String) (h : List (String × String)) : Bool :=
  h.any (fun p => p.1 == k)

/-- Dictionary assignment d[k] = v: replace the entry in place when the key
is present, append otherwise. -/
def dictSet (k v : String) (h : List (String × String)) : List (String × String) :=
  if dictContains k h then
    h.map (fun p => if p.1 = k then (k, v) else p)
  else
    h ++ [(k, v)]

/-- Dictionary deletion del d[k]. -/
def dictDel (k : String) (h : List (String × String)) : List (String × String) :=
  h.filter (fun p => p.1 != k)

/-- The re.match of line 178: the pattern anchored at the start requires the
path to begin with /search followed by a literal dot (the trailing .*
matches anything, the empty string included). -/
def matchesSearch (path : String) : Bool :=
  List.isPrefixOf "/search.".data path.data

/-- Embedding of the header policy of lines 178-183, applied to the shared
client header dict: a search path force-injects the Basic-Auth header built
from username:password, any other path deletes an Authorization entry when
one is present. -/
def applyAuthPolicy (path username password : String)
    (headers : List (String × String)) : List (String × String) :=
  if matchesSearch path then
    dictSet "Authorization" ("Basic " ++ b64encode (username ++ ":" ++ password)) headers
  else if dictContains "Authorization" headers then
    dictDel "Authorization" headers
  else
    headers

/-- An entry of the endpoint mapping table (external data): path template,
HTTP method, expected success status and valid named parameters. -/
structure Endpoint where
  path : String
  method : String
  status : Int
  valid_params : List String

/-- The HTTP request a dispatched call hands to the transport layer: final
URL, verb, body (serialized as JSON by the transport call) and the headers
in force. -/
structure Request where
  url : String
  method : String
  body : PyVal
  headers : List (String × String)

/-- The default client headers (lines 107-111). -/
def defaultHeaders : List (String × String) :=
  [("User-agent", "Zendesk Python Library v1.3.1"),
   ("Content-Type", "application/json"),
   ("charset", "utf-8")]

/-- Embedding of line 156: body = kwargs.pop(\x27data\x27, None) or
self.data.  The popped value defaults to None when the caller passed no
data keyword; the Python or falls through to the ambient client body
whenever the popped value is falsy. -/
def selectBody (dataKw : Option PyVal) (clientData : PyVal) : PyVal :=
  let popped := dataKw.getD .none
  if popped.truthy then popped else clientData

/-- Embedding of the validation loop of lines 166-171: the first keyword,
in mapping order, for which the raise condition holds.  The condition is
the source's verbatim conjunction: the keyword is outside valid_params AND
(api_version equals 2 AND the keyword is outside V2_COLLECTION_PARAMS) - so
for api_version 1 the second conjunct is always false and no keyword is
ever rejected. -/
def firstUnexpected (api_version : Nat) (valid_params : List String)
    (kwargs : List (String × String)) : Option String :=
  (kwargs.map Prod.fst).find? (fun kw =>
    !valid_params.contains kw && (api_version == 2 && !V2_COLLECTION_PARAMS.contains kw))

/-- Embedding of the dispatched call of lines 145-195, up to the transport
boundary.  Keyword arguments are split into the reserved data keyword
(dataKw, popped first at line 156) and the remaining string-valued
keywords.  An error result models an exception raised before any network
request; an ok result carries the request handed to the transport function
together with the client's header dict after the call's mutation.  The
lookup of the operation name in the mapping table (line 147, AttributeError
at line 199 when absent) is resolved before this point and the endpoint
entry is passed in. -/
def call (api_version : Nat) (zendesk_url username password : String)
    (headers : List (String × String)) (clientData : PyVal) (api_call : String)
    (ep : Endpoint) (kwargs : List (String × String)) (dataKw : Option PyVal) :
    Except PyExc (Request × List (String × String)) :=
  let path := if api_version == 2 then "/api/v2" ++ ep.path else ep.path
  let method := ep.method
  let body := selectBody dataKw clientData
  let pr := resolveTemplate (zendesk_url ++ path) kwargs
  match firstUnexpected api_version ep.valid_params pr.2 with
  | some kw =>
    .error (.typeError (api_call ++ "() got an unexpected keyword argument " ++ kw))
  | Option.none =>
    let url := pr.1 ++ "?" ++ urlencode pr.2
    let headers2 := applyAuthPolicy path username password headers
    .ok (⟨url, method, body, headers2⟩, headers2)

end ZendeskModel

namespace ZendeskModel

theorem lookup_filter_ne (k : String) (h : List (String × String)) :
    (h.filter (fun p => p.1 != k)).lookup k = Option.none := by
  rw [List.lookup_eq_none_iff]
  intro p hp
  have hm := (List.mem_filter.mp hp).2
  simp only [bne_iff_ne] at hm ⊢
  exact fun e => hm e.symm

theorem lookup_not_contains {k : String} {h : List (String × String)}
    (hc : dictContains k h = false) : h.lookup k = Option.none := by
  rw [List.lookup_eq_none_iff]
  intro p hp
  unfold dictContains at hc
  rw [List.any_eq_false] at hc
  have hm := hc p hp
  simp only [beq_iff_eq] at hm
  simp only [bne_iff_ne]
  exact fun e => hm e.symm

theorem lookup_map_set {k v : String} :
    ∀ {h : List (String × String)}, dictContains k h = true →
      (h.map (fun p => if p.1 = k then (k, v) else p)).lookup k = some v := by
  intro h
  induction h with
  | nil => intro hc; simp [dictContains] at hc
  | cons q t ih =>
    intro hc
    obtain ⟨q1, q2⟩ := q
    by_cases hq : q1 = k
    · simp [hq]
    · have hc2 : dictContains k t = true := by
        unfold dictContains at hc ⊢
        simpa [hq] using hc
      have hkq : (k == q1) = false := by
        simp only [beq_eq_false_iff_ne]
        exact fun e => hq e.symm
      simp [hq, List.lookup_cons, hkq, ih hc2]

theorem lookup_dictSet (k v : String) (h : List (String × String)) :
    (dictSet k v h).lookup k = some v := by
  unfold dictSet
  by_cases hc : dictContains k h
  · rw [if_pos hc]
    exact lookup_map_set hc
  · rw [if_neg hc]
    rw [List.lookup_append, lookup_not_contains (Bool.eq_false_iff.mpr hc)]
    simp

theorem authPolicy_lookup (path u pw : String) (hs : List (String × String)) :
    dictGet "Authorization" (applyAuthPolicy path u pw hs) =
      (if matchesSearch path then some ("Basic " ++ b64encode (u ++ ":" ++ pw))
       else Option.none) := by
  unfold applyAuthPolicy dictGet dictDel
  cases hm : matchesSearch path
  · simp only [Bool.false_eq_true, if_false]
    by_cases hc : dictContains "Authorization" hs
    · rw [if_pos hc]
      exact lookup_filter_ne _ _
    · rw [if_neg hc]
      exact lookup_not_contains (Bool.eq_false_iff.mpr hc)
  · simp only [if_true]
    exact lookup_dictSet _ _ _

theorem matchesSearch_api_v2 (p : String) : matchesSearch ("/api/v2" ++ p) = false := by
  unfold matchesSearch
  rw [String.data_append]
  rfl

theorem call_ok_elim {av : Nat} {base u pw : String} {hs : List (String × String)}
    {cd : PyVal} {name : String} {ep : Endpoint} {kw : List (String × String)}
    {dkw : Option PyVal} {req : Request} {hs2 : List (String × String)}
    (h : call av base u pw hs cd name ep kw dkw = .ok (req, hs2)) :
    hs2 = applyAuthPolicy (if av == 2 then "/api/v2" ++ ep.path else ep.path) u pw hs ∧
    req.headers = hs2 ∧ req.body = selectBody dkw cd := by
  simp only [call] at h
  split at h
  · exact absurd h (by simp)
  · rw [Except.ok.injEq, Prod.mk.injEq] at h
    obtain ⟨hreq, hhs⟩ := h
    subst hhs
    subst hreq
    exact ⟨rfl, rfl, rfl⟩

theorem firstUnexpected_v1 (vp : List String) (kw : List (String × String)) :
    firstUnexpected 1 vp kw = Option.none := by
  unfold firstUnexpected
  rw [List.find?_eq_none]
  intro x hx
  simp

theorem firstUnexpected_v2_coll (vp : List String) (kw : List (String × String))
    (h : ∀ q ∈ kw, q.1 ∈ V2_COLLECTION_PARAMS) :
    firstUnexpected 2 vp kw = Option.none := by
  unfold firstUnexpected
  rw [List.find?_eq_none]
  intro x hx
  obtain ⟨q, hq, rfl⟩ := List.mem_map.mp hx
  have hm := h q hq
  have hcont : V2_COLLECTION_PARAMS.contains q.1 = true := List.elem_iff.mpr hm
  simp [hcont]
  exact fun _ => hm

theorem popKwarg_snd (k : String) (kw : List (String × String)) :
    (popKwarg k kw).2 = kw.filter (fun p => p.1 != k) := by
  unfold popKwarg
  cases hl : kw.lookup k
  · simp only []
    rw [eq_comm, List.filter_eq_self]
    intro p hp
    rw [List.lookup_eq_none_iff] at hl
    have hm := hl p hp
    simp only [bne_iff_ne] at hm ⊢
    exact fun e => hm e.symm
  · rfl

theorem resolveSub_snd (fuel : Nat) :
    ∀ (cs : List Char) (kw : List (String × String)),
      (resolveSub fuel cs kw).2 =
        kw.filter (fun p => !(identsOfAux fuel cs).contains p.1) := by
  induction fuel with
  | zero =>
    intro cs kw
    simp [resolveSub, identsOfAux]
  | succ f ih =>
    intro cs kw
    cases cs with
    | nil => simp [resolveSub, identsOfAux]
    | cons c cs2 =>
      by_cases hc : c = '\x7b' ∧ cs2.head? = some '\x7b' ∧
          cs2.tail.takeWhile isIdentChar ≠ [] ∧
          (cs2.tail.dropWhile isIdentChar).take 2 = ['\x7d', '\x7d']
      · simp only [resolveSub, identsOfAux]
        rw [if_pos hc, if_pos hc]
        simp only []
        rw [ih, popKwarg_snd, List.filter_filter]
        congr 1
        funext p
        simp only [List.contains_cons, Bool.not_or, bne, Bool.and_comm, beq_eq_decide]
      · simp only [resolveSub, identsOfAux]
        rw [if_neg hc, if_neg hc]
        exact ih cs2 kw

end ZendeskModel
namespace ZendeskModel

theorem pyGetItem_not_zendesk (m : PyVal) (k : String) (msg2 : PyVal) (code : Int) :
    pyGetItem m k ≠ .error (.zendeskError msg2 code) := by
  cases m <;> simp [pyGetItem]
  case dict xs => cases xs.lookup k <;> simp

/-- C1: the claim says every operation rejects, for both api versions, any
keyword that survives placeholder consumption and is neither in
valid_params nor (for version 2) in the collection-parameter whitelist,
with an error naming the operation and the keyword and no network call.
The code's condition (lines 167-169) requires api_version == 2 for any
rejection, so for version 1 no keyword is ever rejected and the call
proceeds to the network with the stray keyword in the query string; for
version 2 the claimed rejection does happen.  The three conjuncts prove:
version 1 never reports an unexpected keyword; a version-1 call with the
unknown keyword bogus reaches the transport with bogus in the query
string; the same call under version 2 fails with the TypeError naming the
operation and the keyword (an error result, so no request is built). -/
theorem c1_unexpected_argument_gate :
    (∀ (vp : List String) (kw : List (String × String)),
      firstUnexpected 1 vp kw = Option.none) ∧
    call 1 "https://x.zendesk.com" "u" "p" defaultHeaders .none "list_users"
      ⟨"/users.json", "GET", 200, []⟩ [("bogus", "1")] Option.none =
      .ok (⟨"https://x.zendesk.com/users.json?bogus=1", "GET", .none, defaultHeaders⟩,
        defaultHeaders) ∧
    call 2 "https://x.zendesk.com" "u" "p" defaultHeaders .none "list_users"
      ⟨"/users.json", "GET", 200, []⟩ [("bogus", "1")] Option.none =
      .error (.typeError "list_users() got an unexpected keyword argument bogus") :=
  ⟨firstUnexpected_v1, rfl, rfl⟩

/-- C2: the claim says a 401 response (with a different expected status)
raises AuthenticationError with its message taken from the decoded body's
error field.  In the code the failure branch always runs its except clause
(the try block reads the undefined name respone), the fallback message dict
carries only msg and possibly retry-after, and AuthenticationError's
constructor reads msg[\x27error\x27] from it, so the call always raises
KeyError instead: for every header dict, body and expected status other
than 401, the handler outcome is KeyError on the key error. -/
theorem c2_401_raises_keyerror (hs : List (String × String)) (content : String)
    (expected : Int) (h : expected ≠ 401) :
    response_handler ⟨401, hs⟩ content expected = .error (.keyError "error") := by
  simp only [response_handler]
  rw [if_neg (show ¬((401 : Int) = 0) by decide), if_pos (Ne.symm h)]
  cases hra : dictGet "retry-after" hs <;> rfl

/-- Witness for C2 at a concrete input. -/
theorem c2_witness : response_handler ⟨401, []⟩ "x" 200 = .error (.keyError "error") :=
  c2_401_raises_keyerror [] "x" 200 (by decide)

/-- C3 counterexample: at a concrete 429 response carrying the header
retry-after: 30, the raised ExceededLimitError's retry_after field is the
header string value "30", which is not the integer 30 the claim states
(header values are strings and the code stores them unconverted). -/
theorem c3_counterexample :
    response_handler ⟨429, [("retry-after", "30")]⟩ "x" 200 =
      .error (.exceededLimitError (.str "x") 429 (.str "30")) ∧
    PyVal.str "30" ≠ PyVal.int 30 :=
  ⟨rfl, fun h => PyVal.noConfusion h⟩

/-- C3 as amended: every call whose response has status 429 (expected
status differing) and header retry-after: 30 raises ExceededLimitError
whose retry_after field equals the header's string value "30", and whose
msg is the raw body. -/
theorem c3_rate_limit (content : String) (expected : Int) (h : expected ≠ 429) :
    response_handler ⟨429, [("retry-after", "30")]⟩ content expected =
      .error (.exceededLimitError (.str content) 429 (.str "30")) := by
  simp only [response_handler]
  rw [if_neg (show ¬((429 : Int) = 0) by decide), if_pos (Ne.symm h)]
  rfl

/-- Witness for C3 at a concrete input. -/
theorem c3_witness :
    response_handler ⟨429, [("retry-after", "30")]⟩ "body" 200 =
      .error (.exceededLimitError (.str "body") 429 (.str "30")) :=
  c3_rate_limit "body" 200 (by decide)

/-- C4: the claim says a response matching the expected status with body
consisting of an empty JSON object and no Location header yields a generic
status message.  The code instead evaluates responses[response_status]
where responses is an undefined global name (the import that provided it
was dropped), raising NameError. -/
theorem c4_responses_undefined :
    response_handler ⟨200, []⟩ "\x7b\x7d" 200 = .error (.nameError "responses") := rfl

/-- C5: on every dispatched call, after URL resolution and before the
request, the shared header dict ends up with Authorization bound to
"Basic " followed by the base64 of username:password exactly when the
(version-prefixed) path matches the search pattern, and with no
Authorization entry at all otherwise - so a forced search-auth header
never survives into a later non-search call.  The request carries exactly
this mutated header dict. -/
theorem c5_auth_header_policy :
    ∀ (av : Nat) (base u pw : String) (hs : List (String × String)) (cd : PyVal)
      (name : String) (ep : Endpoint) (kw : List (String × String))
      (dkw : Option PyVal) (req : Request) (hs2 : List (String × String)),
      call av base u pw hs cd name ep kw dkw = .ok (req, hs2) →
      req.headers = hs2 ∧
      dictGet "Authorization" hs2 =
        (if matchesSearch (if av == 2 then "/api/v2" ++ ep.path else ep.path)
         then some ("Basic " ++ b64encode (u ++ ":" ++ pw)) else Option.none) := by
  intro av base u pw hs cd name ep kw dkw req hs2 h
  obtain ⟨h1, h2, _⟩ := call_ok_elim h
  refine ⟨h2, ?_⟩
  rw [h1]
  exact authPolicy_lookup _ _ _ _

/-- Witness for C5: a version-1 call on a non-search path, issued on a
header dict holding a stale Authorization entry, ends with no
Authorization entry. -/
theorem c5_witness :
    dictGet "Authorization" ([] : List (String × String)) =
      (if matchesSearch (if (1 : Nat) == 2 then "/api/v2" ++ "/users.json" else "/users.json")
       then some ("Basic " ++ b64encode ("u" ++ ":" ++ "p")) else Option.none) :=
  (c5_auth_header_policy 1 "https://x.zendesk.com" "u" "p" [("Authorization", "stale")]
    .none "list_users" ⟨"/users.json", "GET", 200, []⟩ [] Option.none
    ⟨"https://x.zendesk.com/users.json?", "GET", .none, []⟩ [] rfl).2

/-- C6: template resolution replaces each matched placeholder occurrence
with the popped keyword value (empty string when the keyword is absent),
and the keyword mapping passed on to validation is exactly the original
one with the matched identifiers removed - unmatched keywords remain.  The
concrete conjuncts check the claim's template of two adjacent placeholders
resolved with only the first keyword: the second placeholder becomes the
empty string and only the first keyword is consumed. -/
theorem c6_template_resolution :
    (∀ (t : String) (kw : List (String × String)),
      (resolveTemplate t kw).2 =
        kw.filter (fun p => !(templateIdents t).contains p.1)) ∧
    resolveTemplate "\x7b\x7ba\x7d\x7d\x7b\x7bb\x7d\x7d" [("a", "5")] = ("5", []) ∧
    resolveTemplate "\x7b\x7ba\x7d\x7d\x7b\x7bb\x7d\x7d" [("a", "5"), ("c", "7")] =
      ("5", [("c", "7")]) ∧
    resolveTemplate "/tickets/\x7b\x7bid\x7d\x7d.json" [("id", "123")] =
      ("/tickets/123.json", []) :=
  ⟨fun t kw => resolveSub_snd t.data.length t.data kw, rfl, rfl, rfl⟩

/-- C7: under api_version 2 the literal /api/v2 is prepended to the path
template before placeholder resolution and the collection parameters page,
per_page and sort_order pass validation on every operation.  The first
conjunct shows any keyword set drawn from the collection whitelist
validates against any valid_params; the second reproduces the claim's
scenario, a GET on /users.json with page=2 reaching the transport at
base_url/api/v2/users.json?page=2; the third shows the prefix combines
with placeholder resolution on a templated path. -/
theorem c7_v2_collection_and_pathing :
    (∀ (vp : List String) (kw : List (String × String)),
      (∀ q ∈ kw, q.1 ∈ V2_COLLECTION_PARAMS) →
        firstUnexpected 2 vp kw = Option.none) ∧
    call 2 "https://x.zendesk.com" "u" "p" defaultHeaders .none "list_users"
      ⟨"/users.json", "GET", 200, []⟩ [("page", "2")] Option.none =
      .ok (⟨"https://x.zendesk.com/api/v2/users.json?page=2", "GET", .none, defaultHeaders⟩,
        defaultHeaders) ∧
    call 2 "https://x.zendesk.com" "u" "p" defaultHeaders .none "show_ticket"
      ⟨"/tickets/\x7b\x7bid\x7d\x7d.json", "GET", 200, []⟩ [("id", "123")] Option.none =
      .ok (⟨"https://x.zendesk.com/api/v2/tickets/123.json?", "GET", .none, defaultHeaders⟩,
        defaultHeaders) :=
  ⟨firstUnexpected_v2_coll, rfl, rfl⟩

/-- Witness for C7 at a concrete input. -/
theorem c7_witness : firstUnexpected 2 [] [("page", "2")] = Option.none :=
  c7_v2_collection_and_pathing.1 [] [("page", "2")] (by
    intro q hq
    simp only [List.mem_singleton] at hq
    subst hq
    decide)

/-- C8 counterexample: the caller passes the explicit (falsy) data value
of an empty dict while the client's ambient body is set; the body handed
to the transport is the ambient value, not the caller's - refuting the
claim that any explicit data value is the body sent. -/
theorem c8_counterexample :
    call 1 "https://x.zendesk.com" "u" "p" defaultHeaders (PyVal.str "ambient")
      "create_ticket" ⟨"/tickets.json", "POST", 201, []⟩ []
      (some (PyVal.dict [])) =
      .ok (⟨"https://x.zendesk.com/tickets.json?", "POST", .str "ambient", defaultHeaders⟩,
        defaultHeaders) ∧
    PyVal.str "ambient" ≠ PyVal.dict [] :=
  ⟨rfl, fun h => PyVal.noConfusion h⟩

/-- C8 as amended: on every dispatched call the body is the explicit data
keyword when that value is truthy, and the client's ambient body otherwise
- a falsy explicit data value (None, empty containers, empty string, 0,
False) falls back to the ambient body because line 156 combines the two
with the Python or operator. -/
theorem c8_body_truthiness :
    ∀ (av : Nat) (base u pw : String) (hs : List (String × String)) (cd : PyVal)
      (name : String) (ep : Endpoint) (kw : List (String × String))
      (dkw : Option PyVal) (req : Request) (hs2 : List (String × String)),
      call av base u pw hs cd name ep kw dkw = .ok (req, hs2) →
      req.body =
        (if (dkw.getD PyVal.none).truthy then dkw.getD PyVal.none else cd) := by
  intro av base u pw hs cd name ep kw dkw req hs2 h
  exact (call_ok_elim h).2.2

/-- Witness for C8 at a concrete input. -/
theorem c8_witness :
    (⟨"https://x.zendesk.com/tickets.json?", "POST", PyVal.str "x", defaultHeaders⟩ :
        Request).body =
      (if ((some (PyVal.str "x")).getD PyVal.none).truthy
       then (some (PyVal.str "x")).getD PyVal.none else PyVal.none) :=
  c8_body_truthiness 1 "https://x.zendesk.com" "u" "p" defaultHeaders PyVal.none
    "create_ticket" ⟨"/tickets.json", "POST", 201, []⟩ [] (some (PyVal.str "x"))
    ⟨"https://x.zendesk.com/tickets.json?", "POST", PyVal.str "x", defaultHeaders⟩
    defaultHeaders rfl

/-- C9: constructing a ZendeskError with the error argument left at its
default None fails inside int(None) with a TypeError, so the handler's
missing-status guard raises that TypeError rather than a ZendeskError, and
whenever construction does complete with a ZendeskError its error_code is
the integer that was passed for the status. -/
theorem c9_error_code_from_status :
    (∀ m : PyVal, constructZendeskError m Option.none =
      .typeError "int() argument must be a string or a number, not NoneType") ∧
    (∀ (hs : List (String × String)) (content : String) (expected : Int),
      response_handler ⟨0, hs⟩ content expected =
        .error (.typeError "int() argument must be a string or a number, not NoneType")) ∧
    (∀ (m : PyVal) (e : Option Int),
      match constructZendeskError m e with
      | .zendeskError _ c2 => e = some c2
      | _ => True) := by
  refine ⟨fun m => rfl, fun hs content expected => rfl, fun m e => ?_⟩
  cases e with
  | none => exact trivial
  | some code =>
    simp only [constructZendeskError]
    by_cases h401 : code = 401
    · rw [if_pos h401]
      cases hget : pyGetItem m "error" with
      | ok v => exact trivial
      | error e2 =>
        rcases e2 with e2m | e2k | e2n | ⟨msg2, c2⟩ | e2a | ⟨m3, c3, r3⟩
        · exact trivial
        · exact trivial
        · exact trivial
        · exact absurd hget (pyGetItem_not_zendesk m "error" msg2 c2)
        · exact trivial
        · exact trivial
    · rw [if_neg h401]
      by_cases h429 : code = 429
      · rw [if_pos h429]
        cases hget : pyGetItem m "retry-after" with
        | error e2 =>
          rcases e2 with e2m | e2k | e2n | ⟨msg2, c2⟩ | e2a | ⟨m3, c3, r3⟩
          · exact trivial
          · exact trivial
          · exact trivial
          · exact absurd hget (pyGetItem_not_zendesk m "retry-after" msg2 c2)
          · exact trivial
          · exact trivial
        | ok ra =>
          cases hget2 : pyGetItem m "msg" with
          | error e2 =>
            rcases e2 with e2m | e2k | e2n | ⟨msg2, c2⟩ | e2a | ⟨m3, c3, r3⟩
            · exact trivial
            · exact trivial
            · exact trivial
            · exact absurd hget2 (pyGetItem_not_zendesk m "msg" msg2 c2)
            · exact trivial
            · exact trivial
          | ok mm => exact trivial
      · rw [if_neg h429]

/-- C10: the search pattern is matched against the path after the /api/v2
prefix has been prepended, so under api_version 2 it can never match, and
consequently every version-2 call leaves the shared header dict without an
Authorization entry. -/
theorem c10_v2_never_search :
    (∀ p : String, matchesSearch ("/api/v2" ++ p) = false) ∧
    (∀ (base u pw : String) (hs : List (String × String)) (cd : PyVal)
      (name : String) (ep : Endpoint) (kw : List (String × String))
      (dkw : Option PyVal) (req : Request) (hs2 : List (String × String)),
      call 2 base u pw hs cd name ep kw dkw = .ok (req, hs2) →
      dictGet "Authorization" hs2 = Option.none) := by
  refine ⟨matchesSearch_api_v2, ?_⟩
  intro base u pw hs cd name ep kw dkw req hs2 h
  obtain ⟨h1, _, _⟩ := call_ok_elim h
  rw [h1, authPolicy_lookup]
  simp [matchesSearch_api_v2]

/-- Witness for C10: a version-2 call on the search endpoint itself still
ends with no Authorization entry. -/
theorem c10_witness : dictGet "Authorization" defaultHeaders = Option.none :=
  c10_v2_never_search.2 "https://x.zendesk.com" "u" "p" defaultHeaders .none "search"
    ⟨"/search.json", "GET", 200, ["query"]⟩ [] Option.none
    ⟨"https://x.zendesk.com/api/v2/search.json?", "GET", .none, defaultHeaders⟩
    defaultHeaders rfl

end ZendeskModel
